import Mathlib

/-!
Verification of the two forecasting CLI scripts of this repository:
`scripts/lstm_validate.py` (Program B) and `scripts/chronos_predict.py`
(Program A).  Prices are modelled as rationals (exact arithmetic standing
in for the scripts' floating point), model inference calls are abstract
functions, and the remote artifact hub is an abstract download function
together with an optional file listing.
-/

/-! ## Basic list statistics (np.mean, np.min, np.max, np.std) -/

/-- Arithmetic mean of a list, `np.mean` (0 on the empty list, which the
scripts never hit). -/
def lmean (xs : List ℚ) : ℚ := xs.sum / (xs.length : ℚ)

/-- Minimum of a list, `np.min` on a nonempty array (0 on `[]`, unreachable). -/
def listMin : List ℚ → ℚ
  | [] => 0
  | [x] => x
  | x :: y :: ys => min x (listMin (y :: ys))

/-- Maximum of a list, `np.max` on a nonempty array (0 on `[]`, unreachable). -/
def listMax : List ℚ → ℚ
  | [] => 0
  | [x] => x
  | x :: y :: ys => max x (listMax (y :: ys))

/-- `scale = 1.0 if max == min else max - min`: the guarded min-max scale of
`lstm_validate.predict` (lines 279-282 and, with the branches flipped,
line 260). -/
def mmScale (xs : List ℚ) : ℚ :=
  if listMax xs = listMin xs then 1 else listMax xs - listMin xs

/-- `np.std`, population standard deviation, with the square root abstracted
as the ambient runtime function `sq` (exact on the rational model's squares
is not needed by any claim). -/
def stdA (sq : ℚ → ℚ) (xs : List ℚ) : ℚ :=
  sq (lmean (xs.map (fun x => (x - lmean xs) ^ 2)))

/-- `xs[-n:]` in Python: the last `n` elements (all of them when shorter). -/
def lastN (n : Nat) (xs : List ℚ) : List ℚ := xs.drop (xs.length - n)

/-- The `1e-8` epsilon added to standard deviations in the manual
normalization of the Keras path. -/
def epsQ : ℚ := 1 / 100000000

/-! ## Feature synthesis of the 6-channel Keras path
(`lstm_validate.predict`, lines 195-203 and 235-243) -/

/-- One moving-average feature:
`np.mean(seq[max(0, i-(span-1)):i+1]) if i >= span-1 else seq[i]`. -/
def movAvg (seq : List ℚ) (i span : Nat) : ℚ :=
  if span - 1 ≤ i then lmean ((seq.drop (i + 1 - span)).take span)
  else seq.getD i 0

/-- One synthesized feature row
`[price, price_change, ma5, ma10, ma20, volume_sim]` at timestep `i`. -/
def featureRow (seq : List ℚ) (i : Nat) : List ℚ :=
  [seq.getD i 0,
   if 0 < i then seq.getD i 0 - seq.getD (i - 1) 0 else 0,
   movAvg seq i 5,
   movAvg seq i 10,
   movAvg seq i 20,
   1]

/-- The full `(len(seq), 6)` feature matrix built from a price window. -/
def mkFeatures (seq : List ℚ) : List (List ℚ) :=
  (List.range seq.length).map (featureRow seq)

/-- Column `j` of a feature matrix (for `axis=0` reductions). -/
def colVals (rows : List (List ℚ)) (j : Nat) : List ℚ :=
  rows.map (fun r => r.getD j 0)

/-- Manual standardization
`(features - np.mean(features, axis=0)) / (np.std(features, axis=0) + 1e-8)`. -/
def manualNorm (sq : ℚ → ℚ) (rows : List (List ℚ)) : List (List ℚ) :=
  rows.map (fun r =>
    (List.range r.length).map (fun j =>
      (r.getD j 0 - lmean (colVals rows j)) / (stdA sq (colVals rows j) + epsQ)))

/-- A fitted scaler's `transform`: `none` models the call raising, in which
case the script falls back to manual standardization. -/
def ScalerFn : Type := List (List ℚ) → Option (List (List ℚ))

/-- `scaler.transform(features)` guarded by try/except, else manual
standardization (lines 208-216 and 246-252). -/
def applyNorm (sq : ℚ → ℚ) (scaler : Option ScalerFn) (rows : List (List ℚ)) :
    List (List ℚ) :=
  match scaler with
  | some t =>
    match t rows with
    | some out => out
    | none => manualNorm sq rows
  | none => manualNorm sq rows

/-! ## The autoregressive prediction loops of `lstm_validate.predict` -/

/-- A loaded model as `predict` dispatches on it: a PyTorch LSTM, a 6-channel
Keras model (with optional companion scaler), or the single-feature Keras
fallback.  Inference is an abstract function from the fed tensor (a list of
per-timestep feature rows) to the scalar output. -/
inductive ModelKind where
  | pytorch (f : List (List ℚ) → ℚ)
  | keras6 (f : List (List ℚ) → ℚ) (scaler : Option ScalerFn)
  | keras1 (f : List (List ℚ) → ℚ)

/-- Single-feature sliding-window loop (PyTorch path lines 288-300, Keras
fallback lines 265-273): predict, denormalize with the *fixed* scale and
offset, slide the window by the *normalized* prediction.  Returns the
predictions together with the trace of tensors fed to inference. -/
def srLoop (f : List (List ℚ) → ℚ) (scale mn : ℚ) :
    List (List ℚ) → Nat → List ℚ × List (List (List ℚ))
  | _, 0 => ([], [])
  | w, n + 1 =>
    let pv := f w
    let out := srLoop f scale mn (w.drop 1 ++ [[pv]]) n
    ((pv * scale + mn) :: out.1, w :: out.2)

/-- 6-channel Keras loop (lines 220-254): predict, denormalize by the raw
window's running mean/std, slide the raw window by the *denormalized*
prediction, and rebuild + renormalize the whole feature tensor. -/
def k6Loop (sq : ℚ → ℚ) (f : List (List ℚ) → ℚ) (scaler : Option ScalerFn) :
    List ℚ → List (List ℚ) → Nat → List ℚ × List (List (List ℚ))
  | _, _, 0 => ([], [])
  | seq, inp, n + 1 =>
    let pv := f inp
    let rp := pv * stdA sq seq + lmean seq
    let seq2 := seq.drop 1 ++ [rp]
    let out := k6Loop sq f scaler seq2 (applyNorm sq scaler (mkFeatures seq2)) n
    (rp :: out.1, inp :: out.2)

/-- Body of `predict` after `current_sequence = np.array(prices[-60:])`:
branch on the model kind, build the initial tensor, run the loop. -/
def predictCore (sq : ℚ → ℚ) (m : ModelKind) (cs : List ℚ) (n : Nat) :
    List ℚ × List (List (List ℚ)) :=
  match m with
  | .pytorch f =>
    srLoop f (mmScale cs) (listMin cs)
      (cs.map (fun p => [(p - listMin cs) / mmScale cs])) n
  | .keras6 f scaler =>
    k6Loop sq f scaler cs (applyNorm sq scaler (mkFeatures cs)) n
  | .keras1 f =>
    let scale := if listMax cs ≠ listMin cs then listMax cs - listMin cs else 1
    srLoop f scale (listMin cs)
      (cs.map (fun p => [(p - listMin cs) / scale])) n

/-- `lstm_validate.predict` with the fed-tensor trace exposed; the loop count
is a natural number (`range(steps)` iterates `max(steps, 0)` times). -/
def predictAux (sq : ℚ → ℚ) (m : ModelKind) (prices : List ℚ) (n : Nat) :
    List ℚ × List (List (List ℚ)) :=
  predictCore sq m (lastN 60 prices) n

/-- `lstm_validate.predict(model, prices, steps)`: the returned prediction
list. -/
def predict (sq : ℚ → ℚ) (m : ModelKind) (prices : List ℚ) (steps : Int) :
    List ℚ :=
  (predictAux sq m prices steps.toNat).1

/-- Well-formedness of a fitted scaler: `transform` preserves the number of
timestep rows (true of every sklearn scaler a `ModelHandle` can carry). -/
def ScalerFnOk (sc : Option ScalerFn) : Prop :=
  ∀ t rows out, sc = some t → t rows = some out → out.length = rows.length

/-- `ScalerFnOk` lifted to a `ModelHandle`. -/
def ScalerOk : ModelKind → Prop
  | .keras6 _ sc => ScalerFnOk sc
  | _ => True

/-! ## Character-level string helpers (Python `split`, `in`, `endswith`,
`lower`), defined over `String.data` so they evaluate by `decide`. -/

/-- Python `str.split(',')` accumulator: splits at every separator char,
keeping empty tokens (`''.split(',') == ['']`). -/
def splitCharAux (sep : Char) : List Char → List Char → List (List Char)
  | [], acc => [acc.reverse]
  | c :: cs, acc =>
    if c = sep then acc.reverse :: splitCharAux sep cs []
    else splitCharAux sep cs (c :: acc)

/-- The comma-separated tokens of `args.prices` (Python `s.split(',')`). -/
def tokensOf (s : String) : List String :=
  (splitCharAux ',' s.data []).map (fun cs => String.mk cs)

/-- Whether `pat` starts the list `s` (helper for substring search). -/
def isLeadOf : List Char → List Char → Bool
  | [], _ => true
  | _ :: _, [] => false
  | a :: as, b :: bs => a = b && isLeadOf as bs

/-- Python `pat in s` on character lists. -/
def hasSub (pat : List Char) : List Char → Bool
  | [] => pat.isEmpty
  | c :: cs => isLeadOf pat (c :: cs) || hasSub pat cs

/-- Python `s.endswith(suf)` on character lists. -/
def endsWithSub (suf s : List Char) : Bool := isLeadOf suf.reverse s.reverse

/-- ASCII `str.lower` on a character (all remote filenames are ASCII). -/
def toLowerAscii (c : Char) : Char :=
  if 'A' ≤ c ∧ c ≤ 'Z' then Char.ofNat (c.toNat + 32) else c

/-- `f.lower()` as a character list. -/
def lowerChars (f : String) : List Char := f.data.map toLowerAscii

/-- `'scaler' in f.lower() and f.endswith('.pkl')`. -/
def isScalerFile (f : String) : Bool :=
  hasSub "scaler".data (lowerChars f) && endsWithSub ".pkl".data f.data

/-- `'metadata' in f.lower() and f.endswith('.json')`. -/
def isMetadataFile (f : String) : Bool :=
  hasSub "metadata".data (lowerChars f) && endsWithSub ".json".data f.data

/-- `f.endswith('.keras')`. -/
def isKerasFile (f : String) : Bool := endsWithSub ".keras".data f.data

/-! ## The model resolver of `lstm_validate.load_model` -/

/-- The candidate PyTorch checkpoint filenames, in priority order. -/
def pytorchNames : List String :=
  ["model.pth", "pytorch_model.bin", "model.bin", "lstm_model.pth",
   "stock_lstm.pth", "pytorch_model.pt", "model.pt"]

/-- The candidate Keras filenames, in priority order. -/
def kerasNames : List String :=
  ["stage2_universal_lstm_20250705_170829.keras", "model.keras",
   "lstm_model.keras"]

/-- First successful `hf_hub_download` over a candidate list (each failure is
caught and the next candidate tried). -/
def firstHit (dl : String → Option String) : List String → Option String
  | [] => none
  | n :: ns =>
    match dl n with
    | some p => some p
    | none => firstHit dl ns

/-- The Keras-side model search (lines 74-98): the fixed candidate list, then
any `.keras` file of the remote listing (`ls = none` models
`list_repo_files` raising, which is swallowed). -/
def kerasModelSearch (dl : String → Option String) (ls : Option (List String)) :
    Option String :=
  match firstHit dl kerasNames with
  | some p => some p
  | none => (ls.bind (fun fs => fs.find? (fun f => isKerasFile f))).bind dl

/-- The companion (scaler/metadata) search of lines 100-114.  The whole block
is one try: a raising scaler download aborts it before the metadata attempt,
a raising metadata download leaves the already-assigned scaler path.  Returns
`(scaler_path, metadata_path)`. -/
def companionSearch (dl : String → Option String) (ls : Option (List String)) :
    Option String × Option String :=
  match ls with
  | none => (none, none)
  | some fs =>
    match fs.find? (fun f => isScalerFile f) with
    | some f =>
      match dl f with
      | none => (none, none)
      | some sp =>
        match fs.find? (fun f => isMetadataFile f) with
        | some g => (some sp, dl g)
        | none => (some sp, none)
    | none =>
      match fs.find? (fun f => isMetadataFile f) with
      | some g => (none, dl g)
      | none => (none, none)

/-- The resolved artifact paths of one `load_model` invocation. -/
structure ResolveOut where
  modelPath : Option String
  scalerPath : Option String
  metadataPath : Option String
  deriving DecidableEq, Repr

/-- The artifact-resolution flow of `load_model`: PyTorch candidates first
(short-circuiting, and skipping the whole Keras block including the companion
search on success), else the Keras search followed by the companion search. -/
def resolveArtifacts (dl : String → Option String) (ls : Option (List String)) :
    ResolveOut :=
  match firstHit dl pytorchNames with
  | some p => ⟨some p, none, none⟩
  | none =>
    match kerasModelSearch dl ls with
    | some p => ⟨some p, (companionSearch dl ls).1, (companionSearch dl ls).2⟩
    | none => ⟨none, none, none⟩

/-! ## The quantile computation of `chronos_predict` -/

/-- `torch.quantile` with linear interpolation on an already sorted list:
position `q*(n-1)`, value `s[i] + frac*(s[i+1] - s[i])`. -/
def qInterp (s : List ℚ) (q : ℚ) : ℚ :=
  s.getD (⌊q * ((s.length : ℚ) - 1)⌋.toNat) 0 +
    (q * ((s.length : ℚ) - 1) - ((⌊q * ((s.length : ℚ) - 1)⌋.toNat : Nat) : ℚ)) *
      (s.getD (min (⌊q * ((s.length : ℚ) - 1)⌋.toNat + 1) (s.length - 1)) 0 -
        s.getD (⌊q * ((s.length : ℚ) - 1)⌋.toNat) 0)

/-- `torch.quantile(xs, q)` over one sample column. -/
def torchQuantile (xs : List ℚ) (q : ℚ) : ℚ :=
  qInterp (List.insertionSort (· ≤ ·) xs) q

/-- `torch.quantile(forecast[0], q, dim=0)`: the per-position quantile across
the sample trajectories, for each of the `steps` positions. -/
def quantileSeq (forecast : List (List ℚ)) (steps : Nat) (q : ℚ) : List ℚ :=
  (List.range steps).map (fun j =>
    torchQuantile (forecast.map (fun r => r.getD j 0)) q)

/-! ## The `main` entry points -/

/-- `[float(x) for x in tokens]`: left to right, aborting on the first token
the abstract float parser `pf` rejects. -/
def parseFloats (pf : String → Option ℚ) : List String → Option (List ℚ)
  | [] => some []
  | t :: ts =>
    match pf t with
    | none => none
    | some v =>
      match parseFloats pf ts with
      | none => none
      | some vs => some (v :: vs)

/-- `prices = [float(x) for x in args.prices.split(',')]` guarded by
try/except. -/
def parsePrices (pf : String → Option ℚ) (s : String) : Option (List ℚ) :=
  parseFloats pf (tokensOf s)

/-- Program B's stdout payload: an error object or the success object. -/
inductive OutB where
  | err (msg : String)
  | ok (preds : List ℚ) (last : ℚ)
  deriving DecidableEq

/-- One Program B run: stdout payload, exit status, and whether `load_model`
was reached. -/
structure RunB where
  out : OutB
  exitCode : Nat
  loadAttempted : Bool
  deriving DecidableEq

/-- `lstm_validate.main`: parse, length gate, model load, predict, emit. -/
def mainB (pf : String → Option ℚ) (sq : ℚ → ℚ) (pricesArg : String)
    (steps : Int) (load : Except String ModelKind) : RunB :=
  match parsePrices pf pricesArg with
  | none => ⟨.err "Invalid price format", 1, false⟩
  | some prices =>
    if prices.length < 60 then
      ⟨.err "Need at least 60 price points", 1, false⟩
    else
      match load with
      | .error e => ⟨.err e, 1, true⟩
      | .ok m => ⟨.ok (predict sq m prices steps) (prices.getLastD 0), 0, true⟩

/-- Program A's stdout payload. -/
inductive OutA where
  | err (msg : String)
  | ok (median lower upper : List ℚ)
  deriving DecidableEq

/-- One Program A run. -/
structure RunA where
  out : OutA
  exitCode : Nat
  loadAttempted : Bool
  deriving DecidableEq

/-- `chronos_predict.main`: parse, pipeline load, sample-based quantile
forecast (the pipeline's 20 sample trajectories are the abstract input
`forecast`), emit. -/
def mainA (pf : String → Option ℚ) (pricesArg : String) (steps : Int)
    (load : Except String Unit) (forecast : List (List ℚ)) : RunA :=
  match parsePrices pf pricesArg with
  | none => ⟨.err "Invalid price format", 1, false⟩
  | some _ =>
    match load with
    | .error e => ⟨.err ("Failed to load model: " ++ e), 1, true⟩
    | .ok _ =>
      ⟨.ok (quantileSeq forecast steps.toNat (1/2))
          (quantileSeq forecast steps.toNat (1/10))
          (quantileSeq forecast steps.toNat (9/10)), 0, true⟩

/-! ## Definition taken from the spec's words, for the moving-average
refinement claim -/

/-- Modelled from the spec: the left-truncated moving average it describes
for the start of the series — "the mean of the available elements from the
series start through i" when fewer than `span` elements are available. -/
def specTruncMA (seq : List ℚ) (i span : Nat) : ℚ :=
  lmean ((seq.drop (i + 1 - span)).take (min (i + 1) span))

/-- The example input `1,2,...,60` of the spec's testable property. -/
def prices1to60 : List ℚ := (List.range 60).map (fun k => (k : ℚ) + 1)

/-! ## Concrete instances used by counterexamples and witnesses -/

/-- A hub where `model.pth` (a native PyTorch artifact) and a scaler
companion both download fine. -/
def dlC : String → Option String :=
  fun n => if n = "model.pth" || n = "scaler_x.pkl" then some n else none

/-- The matching remote file listing. -/
def fsC : List String := ["model.pth", "scaler_x.pkl"]

/-- A hub with a Keras model and a scaler that download fine, and a
metadata file whose download raises. -/
def dlW : String → Option String :=
  fun n => if n = "model.keras" || n = "sc_scaler.pkl" then some n else none

/-- The matching remote file listing (metadata present but undownloadable). -/
def lsW : Option (List String) :=
  some ["model.keras", "sc_scaler.pkl", "the_metadata.json"]

/-- A concrete PyTorch-path model handle returning constant 0. -/
def mW : ModelKind := .pytorch (fun _ => 0)

/-- A constant 60-point price window. -/
def pW : List ℚ := List.replicate 60 0

/-- 20 one-step sample trajectories `[0], [1], ..., [19]`. -/
def fcW : List (List ℚ) := (List.range 20).map (fun k => [(k : ℚ)])

/-- A 60-token `--prices` argument `1,1,...,1`. -/
def argW : String := String.intercalate "," (List.replicate 60 "1")

/-- A float parser accepting every token as 1 (witness stub). -/
def pfOne : String → Option ℚ := fun _ => some 1

/-- A float parser rejecting every token (witness stub). -/
def pfNone : String → Option ℚ := fun _ => none

/-! ## Helper lemmas -/

theorem lastN_length {n : Nat} {xs : List ℚ} (h : n ≤ xs.length) :
    (lastN n xs).length = n := by
  simp [lastN]; omega

theorem lastN_self {n : Nat} {xs : List ℚ} (h : xs.length = n) :
    lastN n xs = xs := by
  simp [lastN, h]

theorem srLoop_fst_length (f : List (List ℚ) → ℚ) (scale mn : ℚ) :
    ∀ (n : Nat) (w : List (List ℚ)), (srLoop f scale mn w n).1.length = n := by
  intro n
  induction n with
  | zero => intro w; simp [srLoop]
  | succ k ih => intro w; simp [srLoop, ih]

theorem srLoop_snd_length (f : List (List ℚ) → ℚ) (scale mn : ℚ) :
    ∀ (n : Nat) (w : List (List ℚ)), (srLoop f scale mn w n).2.length = n := by
  intro n
  induction n with
  | zero => intro w; simp [srLoop]
  | succ k ih => intro w; simp [srLoop, ih]

theorem srLoop_windows (f : List (List ℚ) → ℚ) (scale mn : ℚ) :
    ∀ (n : Nat) (w : List (List ℚ)), w.length = 60 →
      ∀ u ∈ (srLoop f scale mn w n).2, u.length = 60 := by
  intro n
  induction n with
  | zero => intro w _ u hu; simp [srLoop] at hu
  | succ k ih =>
    intro w hw u hu
    simp only [srLoop, List.mem_cons] at hu
    rcases hu with rfl | hu
    · exact hw
    · exact ih _ (by simp [List.length_append, List.length_drop, hw]) u hu

theorem srLoop_fst_eq (f : List (List ℚ) → ℚ) (scale mn : ℚ) :
    ∀ (n : Nat) (w : List (List ℚ)),
      (srLoop f scale mn w n).1 =
        (srLoop f scale mn w n).2.map (fun u => f u * scale + mn) := by
  intro n
  induction n with
  | zero => intro w; simp [srLoop]
  | succ k ih => intro w; simp [srLoop, ih]

theorem mkFeatures_length (seq : List ℚ) : (mkFeatures seq).length = seq.length := by
  simp [mkFeatures]

theorem manualNorm_length (sq : ℚ → ℚ) (rows : List (List ℚ)) :
    (manualNorm sq rows).length = rows.length := by
  simp [manualNorm]

theorem applyNorm_length (sq : ℚ → ℚ) (sc : Option ScalerFn) (hsc : ScalerFnOk sc)
    (rows : List (List ℚ)) : (applyNorm sq sc rows).length = rows.length := by
  cases sc with
  | none => simp [applyNorm, manualNorm_length]
  | some t =>
    cases ht : t rows with
    | none => simp [applyNorm, ht, manualNorm_length]
    | some out =>
      simp only [applyNorm, ht]
      exact hsc t rows out rfl ht

theorem k6Loop_fst_length (sq : ℚ → ℚ) (f : List (List ℚ) → ℚ)
    (scaler : Option ScalerFn) :
    ∀ (n : Nat) (seq : List ℚ) (inp : List (List ℚ)),
      (k6Loop sq f scaler seq inp n).1.length = n := by
  intro n
  induction n with
  | zero => intro seq inp; simp [k6Loop]
  | succ k ih => intro seq inp; simp [k6Loop, ih]

theorem k6Loop_snd_length (sq : ℚ → ℚ) (f : List (List ℚ) → ℚ)
    (scaler : Option ScalerFn) :
    ∀ (n : Nat) (seq : List ℚ) (inp : List (List ℚ)),
      (k6Loop sq f scaler seq inp n).2.length = n := by
  intro n
  induction n with
  | zero => intro seq inp; simp [k6Loop]
  | succ k ih => intro seq inp; simp [k6Loop, ih]

theorem k6Loop_windows (sq : ℚ → ℚ) (f : List (List ℚ) → ℚ)
    (scaler : Option ScalerFn) (hsc : ScalerFnOk scaler) :
    ∀ (n : Nat) (seq : List ℚ) (inp : List (List ℚ)),
      seq.length = 60 → inp.length = 60 →
      ∀ u ∈ (k6Loop sq f scaler seq inp n).2, u.length = 60 := by
  intro n
  induction n with
  | zero => intro seq inp _ _ u hu; simp [k6Loop] at hu
  | succ k ih =>
    intro seq inp hseq hinp u hu
    simp only [k6Loop, List.mem_cons] at hu
    rcases hu with rfl | hu
    · exact hinp
    · have hseq2 : (seq.drop 1 ++
          [f inp * stdA sq seq + lmean seq]).length = 60 := by
        simp [List.length_append, List.length_drop, hseq]
      exact ih _ _ hseq2 (by
        rw [applyNorm_length sq scaler hsc, mkFeatures_length]; exact hseq2) u hu

theorem predictAux_fst_length (sq : ℚ → ℚ) (m : ModelKind) (prices : List ℚ)
    (n : Nat) : (predictAux sq m prices n).1.length = n := by
  cases m <;>
    simp [predictAux, predictCore, srLoop_fst_length, k6Loop_fst_length]

theorem predictAux_snd_length (sq : ℚ → ℚ) (m : ModelKind) (prices : List ℚ)
    (n : Nat) : (predictAux sq m prices n).2.length = n := by
  cases m <;>
    simp [predictAux, predictCore, srLoop_snd_length, k6Loop_snd_length]

theorem predictAux_windows (sq : ℚ → ℚ) (m : ModelKind) (prices : List ℚ)
    (n : Nat) (hp : 60 ≤ prices.length) (hm : ScalerOk m) :
    ∀ w ∈ (predictAux sq m prices n).2, w.length = 60 := by
  have hcs : (lastN 60 prices).length = 60 := lastN_length hp
  cases m with
  | pytorch f =>
    intro w hw
    exact srLoop_windows _ _ _ n _ (by simp [hcs]) w hw
  | keras1 f =>
    intro w hw
    simp only [predictAux, predictCore] at hw
    exact srLoop_windows _ _ _ n _ (by simp [hcs]) w hw
  | keras6 f scaler =>
    intro w hw
    exact k6Loop_windows sq f scaler hm n _ _ hcs
      (by rw [applyNorm_length sq scaler hm, mkFeatures_length]; exact hcs) w hw

theorem predictAux_zero (sq : ℚ → ℚ) (m : ModelKind) (prices : List ℚ) :
    predictAux sq m prices 0 = ([], []) := by
  cases m <;> simp [predictAux, predictCore, srLoop, k6Loop]

theorem listMin_replicate (n : Nat) (c : ℚ) :
    listMin (List.replicate (n + 1) c) = c := by
  induction n with
  | zero => simp [listMin]
  | succ k ih =>
    rw [List.replicate_succ, List.replicate_succ]
    rw [List.replicate_succ] at ih
    simp only [listMin, ih, min_self]

theorem listMax_replicate (n : Nat) (c : ℚ) :
    listMax (List.replicate (n + 1) c) = c := by
  induction n with
  | zero => simp [listMax]
  | succ k ih =>
    rw [List.replicate_succ, List.replicate_succ]
    rw [List.replicate_succ] at ih
    simp only [listMax, ih, max_self]

theorem mmScale_replicate (n : Nat) (c : ℚ) :
    mmScale (List.replicate (n + 1) c) = 1 := by
  simp [mmScale, listMin_replicate, listMax_replicate]

theorem listMin_le_listMax (y : ℚ) (ys : List ℚ) :
    listMin (y :: ys) ≤ listMax (y :: ys) := by
  cases ys with
  | nil => simp [listMin, listMax]
  | cons z zs =>
    calc listMin (y :: z :: zs) ≤ y := by simp [listMin]
      _ ≤ listMax (y :: z :: zs) := by simp [listMax]

theorem mmScale_pos (y : ℚ) (ys : List ℚ) : 0 < mmScale (y :: ys) := by
  unfold mmScale
  split
  · exact one_pos
  · next h =>
    have hle := listMin_le_listMax y ys
    have : listMin (y :: ys) < listMax (y :: ys) := lt_of_le_of_ne hle (Ne.symm h)
    linarith

theorem parseFloats_eq_none (pf : String → Option ℚ) :
    ∀ (ts : List String) (t : String), t ∈ ts → pf t = none →
      parseFloats pf ts = none := by
  intro ts
  induction ts with
  | nil => intro t ht; simp at ht
  | cons s ss ih =>
    intro t ht hbad
    rcases List.mem_cons.mp ht with rfl | hmem
    · simp [parseFloats, hbad]
    · cases hs : pf s with
      | none => simp [parseFloats, hs]
      | some v => simp [parseFloats, hs, ih t hmem hbad]

theorem movAvg_spec (seq : List ℚ) (i span : Nat) (hs : 1 ≤ span) :
    movAvg seq i span =
      if span - 1 ≤ i then specTruncMA seq i span else seq.getD i 0 := by
  unfold movAvg specTruncMA
  split
  · next h =>
    rw [Nat.min_eq_right (by omega)]
  · next h =>
    rfl

theorem sorted_getD_le {s : List ℚ} (hs : List.Sorted (· ≤ ·) s) {i j : Nat}
    (hij : i ≤ j) (hj : j < s.length) : s.getD i 0 ≤ s.getD j 0 := by
  rcases eq_or_lt_of_le hij with rfl | hlt
  · exact le_refl _
  · have hi : i < s.length := lt_trans hlt hj
    rw [List.getD_eq_getElem?_getD, List.getElem?_eq_getElem hi,
      List.getD_eq_getElem?_getD, List.getElem?_eq_getElem hj]
    simpa using List.Sorted.rel_get_of_lt hs
      (show (⟨i, hi⟩ : Fin s.length) < ⟨j, hj⟩ from hlt)

theorem interp_bounds {a b g : ℚ} (hab : a ≤ b) (h0 : 0 ≤ g) (h1 : g ≤ 1) :
    a ≤ a + g * (b - a) ∧ a + g * (b - a) ≤ b := by
  constructor
  · nlinarith
  · nlinarith

theorem floor_nineteen_tenths : ⌊(19/10 : ℚ)⌋ = 1 := by
  rw [Int.floor_eq_iff]; norm_num

theorem floor_nineteen_halves : ⌊(19/2 : ℚ)⌋ = 9 := by
  rw [Int.floor_eq_iff]; norm_num

theorem floor_seventeen_one : ⌊(171/10 : ℚ)⌋ = 17 := by
  rw [Int.floor_eq_iff]; norm_num

theorem qInterp_tenth {s : List ℚ} (hl : s.length = 20) :
    qInterp s (1/10) = s.getD 1 0 + (9/10) * (s.getD 2 0 - s.getD 1 0) := by
  have h1 : (1/10 : ℚ) * ((s.length : ℚ) - 1) = 19/10 := by
    rw [hl]; norm_num
  have h2 : (⌊(19/10 : ℚ)⌋).toNat = 1 := by rw [floor_nineteen_tenths]; decide
  unfold qInterp
  rw [h1, h2, hl]
  norm_num

theorem qInterp_half {s : List ℚ} (hl : s.length = 20) :
    qInterp s (1/2) = s.getD 9 0 + (1/2) * (s.getD 10 0 - s.getD 9 0) := by
  have h1 : (1/2 : ℚ) * ((s.length : ℚ) - 1) = 19/2 := by
    rw [hl]; norm_num
  have h2 : (⌊(19/2 : ℚ)⌋).toNat = 9 := by
    rw [floor_nineteen_halves]; decide
  unfold qInterp
  rw [h1, h2, hl]
  norm_num

theorem qInterp_ninth {s : List ℚ} (hl : s.length = 20) :
    qInterp s (9/10) = s.getD 17 0 + (1/10) * (s.getD 18 0 - s.getD 17 0) := by
  have h1 : (9/10 : ℚ) * ((s.length : ℚ) - 1) = 171/10 := by
    rw [hl]; norm_num
  have h2 : (⌊(171/10 : ℚ)⌋).toNat = 17 := by
    rw [floor_seventeen_one]; decide
  unfold qInterp
  rw [h1, h2, hl]
  norm_num

theorem quantile_chain (xs : List ℚ) (h : xs.length = 20) :
    torchQuantile xs (1/10) ≤ torchQuantile xs (1/2) ∧
    torchQuantile xs (1/2) ≤ torchQuantile xs (9/10) := by
  have hst : List.Sorted (· ≤ ·) (List.insertionSort (· ≤ ·) xs) :=
    List.sorted_insertionSort _ _
  have hl : (List.insertionSort (· ≤ ·) xs).length = 20 :=
    ((List.perm_insertionSort _ _).length_eq).trans h
  set s := List.insertionSort (· ≤ ·) xs with hsdef
  have e1 := qInterp_tenth hl
  have e2 := qInterp_half hl
  have e3 := qInterp_ninth hl
  have g12 : s.getD 1 0 ≤ s.getD 2 0 := sorted_getD_le hst (by omega) (by omega)
  have g29 : s.getD 2 0 ≤ s.getD 9 0 := sorted_getD_le hst (by omega) (by omega)
  have g910 : s.getD 9 0 ≤ s.getD 10 0 := sorted_getD_le hst (by omega) (by omega)
  have g1017 : s.getD 10 0 ≤ s.getD 17 0 := sorted_getD_le hst (by omega) (by omega)
  have g1718 : s.getD 17 0 ≤ s.getD 18 0 := sorted_getD_le hst (by omega) (by omega)
  constructor
  · calc torchQuantile xs (1/10) ≤ s.getD 2 0 := by
          rw [torchQuantile, ← hsdef, e1]
          exact (interp_bounds g12 (by norm_num) (by norm_num)).2
      _ ≤ s.getD 9 0 := g29
      _ ≤ torchQuantile xs (1/2) := by
          rw [torchQuantile, ← hsdef, e2]
          exact (interp_bounds g910 (by norm_num) (by norm_num)).1
  · calc torchQuantile xs (1/2) ≤ s.getD 10 0 := by
          rw [torchQuantile, ← hsdef, e2]
          exact (interp_bounds g910 (by norm_num) (by norm_num)).2
      _ ≤ s.getD 17 0 := g1017
      _ ≤ torchQuantile xs (9/10) := by
          rw [torchQuantile, ← hsdef, e3]
          exact (interp_bounds g1718 (by norm_num) (by norm_num)).1

theorem quantileSeq_getD (forecast : List (List ℚ)) (steps : Nat) (q : ℚ)
    {j : Nat} (hj : j < steps) :
    (quantileSeq forecast steps q).getD j 0 =
      torchQuantile (forecast.map (fun r => r.getD j 0)) q := by
  rw [quantileSeq, List.getD_eq_getElem?_getD, List.getElem?_map,
    List.getElem?_range hj]
  rfl

/-! ## Claim theorems -/

/-- Claim C1: for every model handle (with a well-formed fitted scaler),
every price list of length at least 60 and every `steps ≥ 1`, `predict`
returns exactly `steps` values, the loop performs exactly `steps` inference
calls, and every tensor fed to an inference call has exactly 60 timestep
rows (the window length stays 60 across all iterations). -/
theorem c1_steps_and_window_len (sq : ℚ → ℚ) (m : ModelKind) (prices : List ℚ)
    (steps : Int) (hp : 60 ≤ prices.length) (hs : 1 ≤ steps) (hm : ScalerOk m) :
    ((predict sq m prices steps).length : Int) = steps ∧
    (predictAux sq m prices steps.toNat).2.length = steps.toNat ∧
    ∀ w ∈ (predictAux sq m prices steps.toNat).2, w.length = 60 := by
  refine ⟨?_, predictAux_snd_length _ _ _ _, predictAux_windows _ _ _ _ hp hm⟩
  rw [predict, predictAux_fst_length]
  exact Int.toNat_of_nonneg (by omega)

/-- Witness for C1 at a concrete constant-zero model, a constant window and
one step. -/
theorem c1_steps_window_witness :
    (60 ≤ pW.length ∧ 1 ≤ (1 : Int) ∧ ScalerOk mW) ∧
    (((predict id mW pW 1).length : Int) = 1 ∧
      (predictAux id mW pW 1).2.length = (1 : Int).toNat ∧
      ∀ w ∈ (predictAux id mW pW 1).2, w.length = 60) :=
  ⟨⟨by decide, by decide, trivial⟩,
    c1_steps_and_window_len id mW pW 1 (by decide) (by decide) trivial⟩

/-- Claim C2 counterexample: in the 6-channel feature synthesis, at timestep
`i = 1` of the window `0, 2, 0, ..., 0` the code's 5-step moving-average
feature is the current price 2, not the left-truncated mean 1 of the
available elements, so the claim as stated is false. -/
theorem c2_ma_counterexample :
    (featureRow (0 :: 2 :: List.replicate 58 0) 1).getD 2 0 ≠
      specTruncMA (0 :: 2 :: List.replicate 58 0) 1 5 := by
  norm_num [featureRow, movAvg, specTruncMA, lmean]

/-- Claim C2 amended: at timesteps with a full nominal span available
(`i ≥ span - 1`) each moving-average feature is the mean of the last `span`
elements (which agrees with the spec's left-truncated mean there); at earlier
timesteps it falls back to the current price, not a truncated mean. -/
theorem c2_ma_amended (seq : List ℚ) (i : Nat) :
    ((featureRow seq i).getD 2 0 =
      if 4 ≤ i then specTruncMA seq i 5 else seq.getD i 0) ∧
    ((featureRow seq i).getD 3 0 =
      if 9 ≤ i then specTruncMA seq i 10 else seq.getD i 0) ∧
    ((featureRow seq i).getD 4 0 =
      if 19 ≤ i then specTruncMA seq i 20 else seq.getD i 0) := by
  refine ⟨?_, ?_, ?_⟩
  · rw [show (featureRow seq i).getD 2 0 = movAvg seq i 5 from rfl,
      movAvg_spec seq i 5 (by norm_num)]
  · rw [show (featureRow seq i).getD 3 0 = movAvg seq i 10 from rfl,
      movAvg_spec seq i 10 (by norm_num)]
  · rw [show (featureRow seq i).getD 4 0 = movAvg seq i 20 from rfl,
      movAvg_spec seq i 20 (by norm_num)]

set_option maxRecDepth 8000 in
/-- Claim C3: on the prices `1, 2, ..., 60` with three steps and a stub
model returning the fixed normalized value `1/2` on every call, the
PyTorch-path `predict` returns three predictions all equal to
`1/2 * scale + min` for the scale and minimum of the initial window (they
are never recomputed inside the loop). -/
theorem c3_fixed_normalization :
    predict id (ModelKind.pytorch (fun _ => 1/2)) prices1to60 3 =
      List.replicate 3 ((1/2) * mmScale prices1to60 + listMin prices1to60) := by
  norm_num [predict, predictAux, predictCore, lastN, srLoop, mmScale,
    prices1to60, List.range_succ, listMin, listMax, min_def, max_def,
    List.replicate]

/-- Claim C4: on a constant 60-value window the guarded min-max scale is 1
(not 0), every prediction is the model's output plus the window constant (an
affine map with unit scale, so finite outputs stay finite), and on every
nonempty window the guarded scale is strictly positive, so the normalization
never divides by zero. -/
theorem c4_constant_window_safe (c : ℚ) (f : List (List ℚ) → ℚ)
    (steps : Int) :
    mmScale (List.replicate 60 c) = 1 ∧
    (predictAux id (.pytorch f) (List.replicate 60 c) steps.toNat).1 =
      (predictAux id (.pytorch f) (List.replicate 60 c) steps.toNat).2.map
        (fun w => f w + c) ∧
    ∀ (y : ℚ) (ys : List ℚ), 0 < mmScale (y :: ys) := by
  have hcs : lastN 60 (List.replicate 60 c) = List.replicate 60 c :=
    lastN_self (by simp)
  have h1 : mmScale (List.replicate 60 c) = 1 := mmScale_replicate 59 c
  have h2 : listMin (List.replicate 60 c) = c := listMin_replicate 59 c
  refine ⟨h1, ?_, mmScale_pos⟩
  simp only [predictAux, predictCore, hcs, h1, h2]
  rw [srLoop_fst_eq]
  simp [mul_one]

/-- Claim C5 counterexample: with a native PyTorch artifact available
(`model.pth` downloads fine) and a perfectly downloadable scaler companion
in the remote listing, the resolver returns the model but no companion
paths — the companion search only runs inside the Keras fallback branch, so
the claim as stated ("whenever a model is found, by any strategy") is
false. -/
theorem c5_companion_counterexample :
    ((resolveArtifacts dlC (some fsC)).modelPath = some "model.pth" ∧
      fsC.find? (fun f => isScalerFile f) = some "scaler_x.pkl" ∧
      dlC "scaler_x.pkl" = some "scaler_x.pkl") ∧
    (resolveArtifacts dlC (some fsC)).scalerPath = none ∧
    (resolveArtifacts dlC (some fsC)).metadataPath = none := by
  decide

/-- Claim C5 amended: only when the model is found through the alternative
(Keras) format path does the resolver search the remote listing for scaler
and metadata companions, best-effort (the model path is returned whatever
the companion downloads do); when a native-format candidate hits, the Keras
block and with it the companion search are skipped entirely. -/
theorem c5_companion_amended (dl : String → Option String)
    (ls : Option (List String)) :
    (∀ p, firstHit dl pytorchNames = some p →
      resolveArtifacts dl ls = ⟨some p, none, none⟩) ∧
    (firstHit dl pytorchNames = none →
      ∀ p, kerasModelSearch dl ls = some p →
        resolveArtifacts dl ls =
          ⟨some p, (companionSearch dl ls).1, (companionSearch dl ls).2⟩) := by
  constructor
  · intro p hp
    simp only [resolveArtifacts, hp]
  · intro h0 p hk
    simp only [resolveArtifacts, h0, hk]

/-- Witness for the amended C5: a Keras model and scaler that download, a
metadata companion whose download raises; the model and scaler are still
resolved and the metadata failure is swallowed. -/
theorem c5_companion_witness :
    (firstHit dlW pytorchNames = none ∧
      kerasModelSearch dlW lsW = some "model.keras") ∧
    resolveArtifacts dlW lsW =
      ⟨some "model.keras", some "sc_scaler.pkl", none⟩ :=
  ⟨⟨by decide, by decide⟩,
    ((c5_companion_amended dlW lsW).2 (by decide) "model.keras"
        (by decide)).trans (by decide)⟩

/-- Claim C6: for 20 sample trajectories each of length `steps`, the three
quantile sequences (10th, 50th, 90th percentile per position) each have
length `steps`, and at every position lower ≤ median ≤ upper. -/
theorem c6_quantile_bounds (forecast : List (List ℚ)) (steps : Nat)
    (h20 : forecast.length = 20) (hrows : ∀ r ∈ forecast, r.length = steps) :
    (quantileSeq forecast steps (1/10)).length = steps ∧
    (quantileSeq forecast steps (1/2)).length = steps ∧
    (quantileSeq forecast steps (9/10)).length = steps ∧
    ∀ j < steps,
      (quantileSeq forecast steps (1/10)).getD j 0 ≤
          (quantileSeq forecast steps (1/2)).getD j 0 ∧
        (quantileSeq forecast steps (1/2)).getD j 0 ≤
          (quantileSeq forecast steps (9/10)).getD j 0 := by
  refine ⟨by simp [quantileSeq], by simp [quantileSeq], by simp [quantileSeq],
    ?_⟩
  intro j hj
  have hcol : (forecast.map (fun r => r.getD j 0)).length = 20 := by
    simp [h20]
  have hchain := quantile_chain (forecast.map (fun r => r.getD j 0)) hcol
  rw [quantileSeq_getD forecast steps (1/10) hj,
    quantileSeq_getD forecast steps (1/2) hj,
    quantileSeq_getD forecast steps (9/10) hj]
  exact hchain

/-- Witness for C6 at 20 concrete one-step trajectories. -/
theorem c6_quantile_witness :
    (fcW.length = 20 ∧ ∀ r ∈ fcW, r.length = 1) ∧
    ((quantileSeq fcW 1 (1/10)).length = 1 ∧
      (quantileSeq fcW 1 (1/2)).length = 1 ∧
      (quantileSeq fcW 1 (9/10)).length = 1 ∧
      ∀ j < 1,
        (quantileSeq fcW 1 (1/10)).getD j 0 ≤
            (quantileSeq fcW 1 (1/2)).getD j 0 ∧
          (quantileSeq fcW 1 (1/2)).getD j 0 ≤
            (quantileSeq fcW 1 (9/10)).getD j 0) :=
  ⟨⟨by decide, by decide⟩, c6_quantile_bounds fcW 1 (by decide) (by decide)⟩

/-- Claim C7: whenever the parsed price list has fewer than 60 elements,
Program B prints the 60-point error object, exits with status 1, and never
reaches the model load, for every `--steps` value. -/
theorem c7_short_input_rejected (pf : String → Option ℚ) (sq : ℚ → ℚ)
    (arg : String) (steps : Int) (load : Except String ModelKind)
    (prices : List ℚ) (hp : parsePrices pf arg = some prices)
    (hlen : prices.length < 60) :
    mainB pf sq arg steps load =
      ⟨.err "Need at least 60 price points", 1, false⟩ := by
  simp only [mainB, hp]
  rw [if_pos hlen]

/-- Witness for C7 at the one-token argument `1`. -/
theorem c7_short_input_witness :
    (parsePrices pfOne "1" = some [1] ∧ ([(1 : ℚ)]).length < 60) ∧
    mainB pfOne id "1" 5 (Except.error "e") =
      ⟨.err "Need at least 60 price points", 1, false⟩ :=
  ⟨⟨by decide, by decide⟩,
    c7_short_input_rejected pfOne id "1" 5 (Except.error "e") [1]
      (by decide) (by decide)⟩

/-- Claim C8: if any comma token of `--prices` fails to parse as a float,
both programs print exactly the error object with message
`Invalid price format`, exit with status 1, and never attempt a model
load. -/
theorem c8_invalid_format (pf : String → Option ℚ) (sq : ℚ → ℚ)
    (arg : String) (stepsA stepsB : Int) (loadB : Except String ModelKind)
    (loadA : Except String Unit) (forecast : List (List ℚ)) (t : String)
    (ht : t ∈ tokensOf arg) (hbad : pf t = none) :
    mainB pf sq arg stepsB loadB = ⟨.err "Invalid price format", 1, false⟩ ∧
    mainA pf arg stepsA loadA forecast =
      ⟨.err "Invalid price format", 1, false⟩ := by
  have hnone : parsePrices pf arg = none :=
    parseFloats_eq_none pf (tokensOf arg) t ht hbad
  constructor
  · simp only [mainB, hnone]
  · simp only [mainA, hnone]

/-- Witness for C8 at the argument `abc` with a rejecting parser. -/
theorem c8_invalid_format_witness :
    ("abc" ∈ tokensOf "abc" ∧ pfNone "abc" = none) ∧
    (mainB pfNone id "abc" 5 (Except.error "e") =
        ⟨.err "Invalid price format", 1, false⟩ ∧
      mainA pfNone "abc" 10 (Except.error "e") [] =
        ⟨.err "Invalid price format", 1, false⟩) :=
  ⟨⟨by decide, rfl⟩,
    c8_invalid_format pfNone id "abc" 10 5 (Except.error "e")
      (Except.error "e") [] "abc" (by decide) rfl⟩

/-- Claim C9: `predict` reads only `prices[-60:]`: for any two price lists of
length at least 60 with the same last 60 elements, the predictions agree for
every (deterministic) model handle and step count. -/
theorem c9_last60_only (sq : ℚ → ℚ) (m : ModelKind) (p1 p2 : List ℚ)
    (steps : Int) (h1 : 60 ≤ p1.length) (h2 : 60 ≤ p2.length)
    (heq : lastN 60 p1 = lastN 60 p2) :
    predict sq m p1 steps = predict sq m p2 steps := by
  simp only [predict, predictAux, heq]

/-- Witness for C9: prepending an element to a 60-point window does not
change the forecast. -/
theorem c9_last60_witness :
    (60 ≤ pW.length ∧ 60 ≤ ((1 : ℚ) :: pW).length ∧
      lastN 60 pW = lastN 60 ((1 : ℚ) :: pW)) ∧
    predict id mW pW 5 = predict id mW ((1 : ℚ) :: pW) 5 :=
  ⟨⟨by decide, by decide, by decide⟩,
    c9_last60_only id mW pW ((1 : ℚ) :: pW) 5 (by decide) (by decide)
      (by decide)⟩

/-- Claim C10: for `steps ≤ 0` the loop body never runs: `predict` returns
the empty list and Program B prints the success object with an empty
prediction list and exits with status 0 — nothing enforces the spec's
`steps ≥ 1` precondition at the public interface. -/
theorem c10_nonpositive_steps (pf : String → Option ℚ) (sq : ℚ → ℚ)
    (arg : String) (steps : Int) (load : Except String ModelKind)
    (m : ModelKind) (prices : List ℚ)
    (hp : parsePrices pf arg = some prices) (hlen : 60 ≤ prices.length)
    (hload : load = Except.ok m) (hsteps : steps ≤ 0) :
    predict sq m prices steps = [] ∧
    mainB pf sq arg steps load = ⟨.ok [] (prices.getLastD 0), 0, true⟩ := by
  have h0 : steps.toNat = 0 := Int.toNat_eq_zero.mpr hsteps
  have hpred : predict sq m prices steps = [] := by
    rw [predict, h0, predictAux_zero]
  refine ⟨hpred, ?_⟩
  simp only [mainB, hp, hload]
  rw [if_neg (by omega : ¬ prices.length < 60)]
  simp [hpred]

set_option maxRecDepth 40000 in
/-- Witness for C10 at sixty `1` tokens and `steps = 0`. -/
theorem c10_nonpositive_witness :
    (parsePrices pfOne argW = some (List.replicate 60 1) ∧
      60 ≤ (List.replicate 60 (1 : ℚ)).length ∧
      (Except.ok mW : Except String ModelKind) = Except.ok mW ∧
      (0 : Int) ≤ 0) ∧
    (predict id mW (List.replicate 60 1) 0 = [] ∧
      mainB pfOne id argW 0 (Except.ok mW) =
        ⟨.ok [] ((List.replicate 60 (1 : ℚ)).getLastD 0), 0, true⟩) :=
  ⟨⟨by decide, by decide, rfl, by decide⟩,
    c10_nonpositive_steps pfOne id argW 0 (Except.ok mW) mW
      (List.replicate 60 1) (by decide) (by decide) rfl (by decide)⟩
